import Mathlib

/-!
Shallow embedding of `src/components/PatientDischarge.tsx`: the data model
(`Patient`, `Consultation`, their tagged union), the discharge command handler
(`handleDischarge`), the daily discharge statistics calculator
(`fetchDischargeStats`), and the search/filter predicate (`filteredRecords`).

Remote effects are made explicit: the handler returns the list of update calls
it issued, the toast notifications it emitted, the successor component state,
and whether the statistics computation was re-triggered.  The outcome of the
remote update is a parameter (`Except String Unit`, the error value being the
underlying cause).  Timestamps and dates are strings, exactly as in the source;
the timestamp window comparison is lexicographic on characters, matching the
string comparison the backend performs on ISO-formatted timestamps.
-/

/-- Character-wise lowercasing, the model of JavaScript `toLowerCase()`. -/
def strLower (s : String) : String :=
  String.mk (s.data.map Char.toLower)

/-- Whether `needle` starts the list `hay`. -/
def charsStartWith (needle hay : List Char) : Bool :=
  match needle, hay with
  | [], _ => true
  | _ :: _, [] => false
  | a :: as, b :: bs => a == b && charsStartWith as bs

/-- Whether `needle` occurs contiguously inside `hay`. -/
def charsInclude (needle : List Char) : List Char → Bool
  | [] => charsStartWith needle []
  | c :: rest => charsStartWith needle (c :: rest) || charsInclude needle rest

/-- Model of JavaScript `hay.includes(needle)`: substring containment. -/
def strIncludes (hay needle : String) : Bool :=
  charsInclude needle.data hay.data

/-- Lexicographic comparison of character lists. -/
def charsLe : List Char → List Char → Bool
  | [], _ => true
  | _ :: _, [] => false
  | a :: as, b :: bs => decide (a < b) || (a == b && charsLe as bs)

/-- Lexicographic string comparison; on ISO timestamp strings this coincides
with the temporal order used by the store's range filters. -/
def strLe (a b : String) : Bool :=
  charsLe a.data b.data

/-- The `Patient` interface of the component (an admission record). -/
structure Patient where
  mrn : String
  patient_name : String
  admission_date : String
  admission_time : String
  patient_status : String
  specialty : String
deriving DecidableEq

/-- The `Consultation` interface of the component. -/
structure Consultation where
  mrn : String
  patient_name : String
  created_at : String
  status : String
  consultation_specialty : String
  requesting_department : String
deriving DecidableEq

/-- The union type `Patient | Consultation`; the source discriminates by
`'specialty' in record`, which holds exactly for the `admission` side. -/
inductive ActiveRecord where
  | admission : Patient → ActiveRecord
  | consultation : Consultation → ActiveRecord
deriving DecidableEq

/-- The `mrn` field, present on both sides of the union. -/
def ActiveRecord.mrn : ActiveRecord → String
  | ActiveRecord.admission p => p.mrn
  | ActiveRecord.consultation c => c.mrn

/-- The `patient_name` field, present on both sides of the union. -/
def ActiveRecord.patient_name : ActiveRecord → String
  | ActiveRecord.admission p => p.patient_name
  | ActiveRecord.consultation c => c.patient_name

/-- The expression `'specialty' in record ? record.specialty :
record.consultation_specialty` used by the specialty filter. -/
def ActiveRecord.displaySpecialty : ActiveRecord → String
  | ActiveRecord.admission p => p.specialty
  | ActiveRecord.consultation c => c.consultation_specialty

/-- The fixed `specialtiesList` constant of the component. -/
def specialtiesList : List String :=
  ["General Internal Medicine",
   "Respiratory Medicine",
   "Infectious Diseases",
   "Neurology",
   "Gastroenterology",
   "Rheumatology",
   "Hematology",
   "Thrombosis Medicine",
   "Immunology & Allergy",
   "Safety Admission",
   "Medical Consultations"]

/-- The component state relevant to the discharge workflow: the `useState`
fields `records`, `selectedRecord`, `dischargeDate`, `dischargeTime`,
`dischargeNote`, `searchTerm`, `selectedSpecialty`. -/
structure ComponentState where
  records : List ActiveRecord
  selectedRecord : Option ActiveRecord
  dischargeDate : String
  dischargeTime : String
  dischargeNote : String
  searchTerm : String
  selectedSpecialty : String
deriving DecidableEq

/-- One remote update call: target table, patch as field/value pairs, and the
`eq('mrn', ...)` key filter. -/
structure UpdateCall where
  table : String
  patch : List (String × String)
  mrn : String
deriving DecidableEq

/-- A toast notification. -/
inductive Notif where
  | success : String → Notif
  | error : String → Notif
deriving DecidableEq

/-- Observable outcome of one `handleDischarge` run: remote update calls
issued, notifications emitted, successor state, and whether
`fetchDischargeStats` was re-triggered. -/
structure DischargeResult where
  updates : List UpdateCall
  notifications : List Notif
  state : ComponentState
  statsRefetched : Bool
deriving DecidableEq

/-- The update call built for the selected record: for an admission the
`patients` patch carrying status, discharge date/time/note and `updated_at`;
for a consultation the `consultations` patch carrying status and `updated_at`
only. -/
def dischargeUpdateCall (sel : ActiveRecord) (st : ComponentState) (now : String) : UpdateCall :=
  match sel with
  | ActiveRecord.admission p =>
      { table := "patients",
        patch := [("patient_status", "Discharged"),
                  ("discharge_date", st.dischargeDate),
                  ("discharge_time", st.dischargeTime),
                  ("discharge_note", st.dischargeNote),
                  ("updated_at", now)],
        mrn := p.mrn }
  | ActiveRecord.consultation c =>
      { table := "consultations",
        patch := [("status", "Completed"), ("updated_at", now)],
        mrn := c.mrn }

/-- The `handleDischarge` handler.  `now` is `new Date().toISOString()` at the
time of the call; `remote` is the outcome of the issued update call (its error
value is the underlying cause).  The guard mirrors
`!selectedRecord || !dischargeDate || !dischargeTime` (empty strings are
falsy). -/
def handleDischarge (st : ComponentState) (now : String) (remote : Except String Unit) : DischargeResult :=
  match st.selectedRecord with
  | none =>
      { updates := [],
        notifications := [Notif.error "Please fill in all required fields"],
        state := st,
        statsRefetched := false }
  | some sel =>
      if st.dischargeDate = "" ∨ st.dischargeTime = "" then
        { updates := [],
          notifications := [Notif.error "Please fill in all required fields"],
          state := st,
          statsRefetched := false }
      else
        match remote with
        | Except.ok _ =>
            { updates := [dischargeUpdateCall sel st now],
              notifications := [Notif.success "Record discharged successfully"],
              state := { st with
                records := st.records.filter (fun r => r.mrn != sel.mrn),
                selectedRecord := none,
                dischargeDate := "",
                dischargeTime := "",
                dischargeNote := "" },
              statsRefetched := true }
        | Except.error _ =>
            { updates := [dischargeUpdateCall sel st now],
              notifications := [Notif.error "Failed to discharge record"],
              state := st,
              statsRefetched := false }

/-- A row of the `patients` table, with the columns the statistics queries
filter on. -/
structure PatientRow where
  mrn : String
  specialty : String
  patient_status : String
  updated_at : String
deriving DecidableEq

/-- A row of the `consultations` table, with the columns the statistics
queries filter on. -/
structure ConsultationRow where
  mrn : String
  consultation_specialty : String
  status : String
  updated_at : String
deriving DecidableEq

/-- Snapshot of the remote store against which the count queries run. -/
structure Database where
  patients : List PatientRow
  consultations : List ConsultationRow
deriving DecidableEq

/-- The day window test `gte(updated_at, today + "T00:00:00")` and
`lte(updated_at, today + "T23:59:59")`. -/
def inTodayWindow (today updatedAt : String) : Bool :=
  strLe (today ++ "T00:00:00") updatedAt && strLe updatedAt (today ++ "T23:59:59")

/-- The nested `dischargedToday` pair of counts. -/
structure DischargedToday where
  admissions : Nat
  consultations : Nat
deriving DecidableEq

/-- One per-specialty statistics entry (`DischargeStats` in the source). -/
structure DischargeStats where
  specialty : String
  dischargedToday : DischargedToday
deriving DecidableEq

/-- The pair of count queries run for one specialty: admissions with matching
specialty, status `Discharged`, `updated_at` in today's window; consultations
with matching consultation specialty, status `Completed`, `updated_at` in
today's window. -/
def specialtyStat (db : Database) (today specialty : String) : DischargeStats :=
  { specialty := specialty,
    dischargedToday :=
      { admissions :=
          (db.patients.filter (fun p =>
            p.specialty == specialty && p.patient_status == "Discharged" &&
            inTodayWindow today p.updated_at)).length,
        consultations :=
          (db.consultations.filter (fun c =>
            c.consultation_specialty == specialty && c.status == "Completed" &&
            inTodayWindow today c.updated_at)).length } }

/-- The `fetchDischargeStats` computation: one entry per specialty of
`specialtiesList`, then entries whose two counts are both zero are filtered
out.  `today` is the calendar date at computation time
(`new Date().toISOString().split('T')[0]`). -/
def fetchDischargeStats (db : Database) (today : String) : List DischargeStats :=
  (specialtiesList.map (specialtyStat db today)).filter (fun stat =>
    decide (0 < stat.dischargedToday.admissions) ||
    decide (0 < stat.dischargedToday.consultations))

/-- The search part of the filter:
`record.patient_name.toLowerCase().includes(searchTerm.toLowerCase()) ||
record.mrn.includes(searchTerm)`. -/
def matchesSearch (searchTerm : String) (r : ActiveRecord) : Bool :=
  strIncludes (strLower r.patient_name) (strLower searchTerm) ||
    strIncludes r.mrn searchTerm

/-- The specialty part of the filter: `!selectedSpecialty ||` the record's
specialty (or consultation specialty) equals the selected one. -/
def matchesSpecialty (selectedSpecialty : String) (r : ActiveRecord) : Bool :=
  selectedSpecialty == "" || r.displaySpecialty == selectedSpecialty

/-- The `filteredRecords` list rendered by the component. -/
def filteredRecords (records : List ActiveRecord) (searchTerm selectedSpecialty : String) :
    List ActiveRecord :=
  records.filter (fun r => matchesSearch searchTerm r && matchesSpecialty selectedSpecialty r)

/-- Spec-side reading of the filter predicate: (patient name contains the
search term case-insensitively OR the medical record number contains it as a
case-sensitive substring) AND (no specialty filter selected OR the record's
specialty equals the filter). -/
def specPassesFilter (searchTerm selectedSpecialty : String) (r : ActiveRecord) : Prop :=
  (strIncludes (strLower r.patient_name) (strLower searchTerm) = true ∨
     strIncludes r.mrn searchTerm = true) ∧
  (selectedSpecialty = "" ∨ r.displaySpecialty = selectedSpecialty)

/-- Spec-side counting predicate for admissions: specialty matches, status is
`Discharged`, and `updated_at` lies in the day window of `today`. -/
def admissionDischargedToday (today s : String) (p : PatientRow) : Prop :=
  p.specialty = s ∧ p.patient_status = "Discharged" ∧
    strLe (today ++ "T00:00:00") p.updated_at = true ∧
    strLe p.updated_at (today ++ "T23:59:59") = true

/-- Spec-side counting predicate for consultations: consultation specialty
matches, status is `Completed`, and `updated_at` lies in the day window of
`today`. -/
def consultationCompletedToday (today s : String) (c : ConsultationRow) : Prop :=
  c.consultation_specialty = s ∧ c.status = "Completed" ∧
    strLe (today ++ "T00:00:00") c.updated_at = true ∧
    strLe c.updated_at (today ++ "T23:59:59") = true

instance (today s : String) (p : PatientRow) :
    Decidable (admissionDischargedToday today s p) := by
  unfold admissionDischargedToday
  infer_instance

instance (today s : String) (c : ConsultationRow) :
    Decidable (consultationCompletedToday today s c) := by
  unfold consultationCompletedToday
  infer_instance

/-- Sample admission used by concrete witnesses. -/
def pJohn : Patient :=
  { mrn := "A1", patient_name := "John Doe", admission_date := "2024-02-20",
    admission_time := "08:00", patient_status := "Active", specialty := "Neurology" }

/-- Sample consultation used by concrete witnesses. -/
def cJane : Consultation :=
  { mrn := "C1", patient_name := "Jane Roe", created_at := "2024-02-21T09:00:00Z",
    status := "Active", consultation_specialty := "Hematology",
    requesting_department := "Emergency" }

/-- Sample consultation sharing its medical record number with `pJohn`. -/
def cSameMrn : Consultation :=
  { mrn := "A1", patient_name := "John Doe", created_at := "2024-02-22T09:00:00Z",
    status := "Active", consultation_specialty := "Hematology",
    requesting_department := "Emergency" }

/-- Sample state with the admission `pJohn` selected and the form filled. -/
def demoState : ComponentState :=
  { records := [ActiveRecord.admission pJohn, ActiveRecord.consultation cJane],
    selectedRecord := some (ActiveRecord.admission pJohn),
    dischargeDate := "2024-03-01", dischargeTime := "10:00", dischargeNote := "stable",
    searchTerm := "", selectedSpecialty := "" }

/-- Sample state with the consultation `cJane` selected and no note entered. -/
def demoStateConsult : ComponentState :=
  { demoState with
    selectedRecord := some (ActiveRecord.consultation cJane),
    dischargeNote := "" }

/-- Sample state with the discharge date left empty and the time filled. -/
def demoStateNoDate : ComponentState :=
  { demoState with dischargeDate := "" }

/-- Sample state whose list holds a consultation sharing the selected
admission's medical record number. -/
def demoStateShared : ComponentState :=
  { demoState with
    records := [ActiveRecord.admission pJohn, ActiveRecord.consultation cSameMrn,
                ActiveRecord.consultation cJane] }

/-- Sample store snapshot: two Neurology admissions discharged on 2024-03-01,
one Hematology admission discharged earlier, one Hematology consultation not
yet completed. -/
def demoDb : Database :=
  { patients :=
      [{ mrn := "A1", specialty := "Neurology", patient_status := "Discharged",
         updated_at := "2024-03-01T10:00:00" },
       { mrn := "A2", specialty := "Neurology", patient_status := "Discharged",
         updated_at := "2024-03-01T16:30:00" },
       { mrn := "A3", specialty := "Hematology", patient_status := "Discharged",
         updated_at := "2024-02-28T12:00:00" }],
    consultations :=
      [{ mrn := "C1", consultation_specialty := "Hematology", status := "Active",
         updated_at := "2024-03-01T11:00:00" }] }

/-- When the guard `!selectedRecord || !dischargeDate || !dischargeTime`
fires, the handler only emits the validation toast. -/
theorem handleDischarge_invalid_eq (st : ComponentState) (now : String)
    (remote : Except String Unit)
    (h : st.selectedRecord = none ∨ st.dischargeDate = "" ∨ st.dischargeTime = "") :
    handleDischarge st now remote =
      { updates := [],
        notifications := [Notif.error "Please fill in all required fields"],
        state := st,
        statsRefetched := false } := by
  cases hs : st.selectedRecord with
  | none =>
      unfold handleDischarge
      rw [hs]
  | some sel =>
      have hcond : st.dischargeDate = "" ∨ st.dischargeTime = "" := by
        rcases h with h | h | h
        · rw [hs] at h; cases h
        · exact Or.inl h
        · exact Or.inr h
      unfold handleDischarge
      rw [hs]
      dsimp only
      rw [if_pos hcond]

/-- Successful run of the handler on a valid submission. -/
theorem handleDischarge_ok_eq (st : ComponentState) (sel : ActiveRecord) (now : String)
    (hsel : st.selectedRecord = some sel)
    (hdate : st.dischargeDate ≠ "") (htime : st.dischargeTime ≠ "") :
    handleDischarge st now (Except.ok ()) =
      { updates := [dischargeUpdateCall sel st now],
        notifications := [Notif.success "Record discharged successfully"],
        state := { st with
          records := st.records.filter (fun r => r.mrn != sel.mrn),
          selectedRecord := none,
          dischargeDate := "",
          dischargeTime := "",
          dischargeNote := "" },
        statsRefetched := true } := by
  have hcond : ¬ (st.dischargeDate = "" ∨ st.dischargeTime = "") := by
    rintro (h | h)
    · exact hdate h
    · exact htime h
  unfold handleDischarge
  rw [hsel]
  dsimp only
  rw [if_neg hcond]

/-- Failing run of the handler on a valid submission. -/
theorem handleDischarge_err_eq (st : ComponentState) (sel : ActiveRecord) (now cause : String)
    (hsel : st.selectedRecord = some sel)
    (hdate : st.dischargeDate ≠ "") (htime : st.dischargeTime ≠ "") :
    handleDischarge st now (Except.error cause) =
      { updates := [dischargeUpdateCall sel st now],
        notifications := [Notif.error "Failed to discharge record"],
        state := st,
        statsRefetched := false } := by
  have hcond : ¬ (st.dischargeDate = "" ∨ st.dischargeTime = "") := by
    rintro (h | h)
    · exact hdate h
    · exact htime h
  unfold handleDischarge
  rw [hsel]
  dsimp only
  rw [if_neg hcond]

/-- On any valid submission the handler issues exactly the one update call
built for the selected record, whatever the remote outcome. -/
theorem handleDischarge_valid_updates_eq (st : ComponentState) (sel : ActiveRecord)
    (now : String) (remote : Except String Unit)
    (hsel : st.selectedRecord = some sel)
    (hdate : st.dischargeDate ≠ "") (htime : st.dischargeTime ≠ "") :
    (handleDischarge st now remote).updates = [dischargeUpdateCall sel st now] := by
  cases remote with
  | ok u =>
      cases u
      rw [handleDischarge_ok_eq st sel now hsel hdate htime]
  | error cause =>
      rw [handleDischarge_err_eq st sel now cause hsel hdate htime]

/-- C1: for every submitted discharge whose selected record is an Admission
and whose discharge date and time are non-empty, the handler issues exactly
one update to the `patients` store keyed by the record's medical record
number, with status `Discharged`, the form's discharge date, time and note,
and `updated_at` set to the current instant. -/
theorem handleDischarge_admission_updates_patients
    (st : ComponentState) (p : Patient) (now : String) (remote : Except String Unit)
    (hsel : st.selectedRecord = some (ActiveRecord.admission p))
    (hdate : st.dischargeDate ≠ "") (htime : st.dischargeTime ≠ "") :
    (handleDischarge st now remote).updates =
      [{ table := "patients",
         patch := [("patient_status", "Discharged"),
                   ("discharge_date", st.dischargeDate),
                   ("discharge_time", st.dischargeTime),
                   ("discharge_note", st.dischargeNote),
                   ("updated_at", now)],
         mrn := p.mrn }] := by
  rw [handleDischarge_valid_updates_eq st (ActiveRecord.admission p) now remote hsel hdate htime]
  rfl

/-- Witness for C1: the sample admission discharge issues exactly the expected
`patients` update. -/
theorem handleDischarge_admission_updates_patients_witness :
    (handleDischarge demoState "2024-03-01T10:00:00.000Z" (Except.ok ())).updates =
      [{ table := "patients",
         patch := [("patient_status", "Discharged"),
                   ("discharge_date", "2024-03-01"),
                   ("discharge_time", "10:00"),
                   ("discharge_note", "stable"),
                   ("updated_at", "2024-03-01T10:00:00.000Z")],
         mrn := "A1" }] :=
  handleDischarge_admission_updates_patients demoState pJohn "2024-03-01T10:00:00.000Z"
    (Except.ok ()) rfl (by decide) (by decide)

/-- C2: for every submitted discharge whose selected record is a Consultation
and whose discharge date and time are non-empty, the handler issues exactly
one update to the `consultations` store keyed by the record's medical record
number, whose patch sets status `Completed` and `updated_at` only — in
particular it carries no discharge note, date or time field. -/
theorem handleDischarge_consultation_updates_consultations
    (st : ComponentState) (c : Consultation) (now : String) (remote : Except String Unit)
    (hsel : st.selectedRecord = some (ActiveRecord.consultation c))
    (hdate : st.dischargeDate ≠ "") (htime : st.dischargeTime ≠ "") :
    (handleDischarge st now remote).updates =
      [{ table := "consultations",
         patch := [("status", "Completed"), ("updated_at", now)],
         mrn := c.mrn }] ∧
    ∀ u ∈ (handleDischarge st now remote).updates, ∀ kv ∈ u.patch,
      kv.1 ≠ "discharge_note" ∧ kv.1 ≠ "discharge_date" ∧ kv.1 ≠ "discharge_time" := by
  rw [handleDischarge_valid_updates_eq st (ActiveRecord.consultation c) now remote hsel hdate htime]
  refine ⟨rfl, ?_⟩
  intro u hu kv hkv
  simp only [dischargeUpdateCall, List.mem_singleton] at hu
  subst hu
  simp only [List.mem_cons, List.not_mem_nil, or_false] at hkv
  rcases hkv with h | h <;> subst h
  · exact ⟨by decide, by decide, by decide⟩
  · refine ⟨?_, ?_, ?_⟩
    · show ("updated_at" : String) ≠ "discharge_note"
      decide
    · show ("updated_at" : String) ≠ "discharge_date"
      decide
    · show ("updated_at" : String) ≠ "discharge_time"
      decide

/-- Witness for C2: the sample consultation discharge issues exactly the
status-and-timestamp update, with no discharge fields in the patch. -/
theorem handleDischarge_consultation_updates_consultations_witness :
    (handleDischarge demoStateConsult "2024-03-01T10:00:00.000Z" (Except.ok ())).updates =
      [{ table := "consultations",
         patch := [("status", "Completed"), ("updated_at", "2024-03-01T10:00:00.000Z")],
         mrn := "C1" }] ∧
    ∀ u ∈ (handleDischarge demoStateConsult "2024-03-01T10:00:00.000Z" (Except.ok ())).updates,
      ∀ kv ∈ u.patch,
        kv.1 ≠ "discharge_note" ∧ kv.1 ≠ "discharge_date" ∧ kv.1 ≠ "discharge_time" :=
  handleDischarge_consultation_updates_consultations demoStateConsult cJane
    "2024-03-01T10:00:00.000Z" (Except.ok ()) rfl (by decide) (by decide)

/-- C3: whenever no record is selected or the discharge date or time is
empty, the handler emits the validation toast, issues no update, leaves the
state untouched and does not re-trigger the statistics. -/
theorem handleDischarge_validation_guard
    (st : ComponentState) (now : String) (remote : Except String Unit)
    (h : st.selectedRecord = none ∨ st.dischargeDate = "" ∨ st.dischargeTime = "") :
    (handleDischarge st now remote).updates = [] ∧
    (handleDischarge st now remote).notifications =
      [Notif.error "Please fill in all required fields"] ∧
    (handleDischarge st now remote).state = st ∧
    (handleDischarge st now remote).statsRefetched = false := by
  rw [handleDischarge_invalid_eq st now remote h]
  exact ⟨rfl, rfl, rfl, rfl⟩

/-- Witness for C3: submitting with the date empty and the time filled issues
no write and fails validation. -/
theorem handleDischarge_validation_guard_witness :
    (handleDischarge demoStateNoDate "2024-03-01T10:00:00.000Z" (Except.ok ())).updates = [] ∧
    (handleDischarge demoStateNoDate "2024-03-01T10:00:00.000Z" (Except.ok ())).notifications =
      [Notif.error "Please fill in all required fields"] ∧
    (handleDischarge demoStateNoDate "2024-03-01T10:00:00.000Z" (Except.ok ())).state =
      demoStateNoDate ∧
    (handleDischarge demoStateNoDate "2024-03-01T10:00:00.000Z" (Except.ok ())).statsRefetched =
      false :=
  handleDischarge_validation_guard demoStateNoDate "2024-03-01T10:00:00.000Z" (Except.ok ())
    (Or.inr (Or.inl rfl))

/-- C4: for every discharge whose remote update succeeds, a success
notification is emitted, no record carrying the selected identifier remains in
the local active list nor in any filtered view of it, the selection and the
discharge date, time and note fields are cleared, and the statistics
computation is re-triggered. -/
theorem handleDischarge_success_postconditions
    (st : ComponentState) (sel : ActiveRecord) (now : String)
    (hsel : st.selectedRecord = some sel)
    (hdate : st.dischargeDate ≠ "") (htime : st.dischargeTime ≠ "") :
    (handleDischarge st now (Except.ok ())).notifications =
      [Notif.success "Record discharged successfully"] ∧
    (∀ r ∈ (handleDischarge st now (Except.ok ())).state.records, r.mrn ≠ sel.mrn) ∧
    (∀ q f, ∀ r ∈ filteredRecords (handleDischarge st now (Except.ok ())).state.records q f,
        r.mrn ≠ sel.mrn) ∧
    (handleDischarge st now (Except.ok ())).state.selectedRecord = none ∧
    (handleDischarge st now (Except.ok ())).state.dischargeDate = "" ∧
    (handleDischarge st now (Except.ok ())).state.dischargeTime = "" ∧
    (handleDischarge st now (Except.ok ())).state.dischargeNote = "" ∧
    (handleDischarge st now (Except.ok ())).statsRefetched = true := by
  rw [handleDischarge_ok_eq st sel now hsel hdate htime]
  refine ⟨rfl, ?_, ?_, rfl, rfl, rfl, rfl, rfl⟩
  · intro r hr
    have hr2 := (List.mem_filter.mp hr).2
    simpa using hr2
  · intro q f r hr
    have hr1 := (List.mem_filter.mp hr).1
    have hr2 := (List.mem_filter.mp hr1).2
    simpa using hr2

/-- Witness for C4: the sample admission discharge succeeds and leaves no
record with the discharged identifier anywhere. -/
theorem handleDischarge_success_postconditions_witness :
    (handleDischarge demoState "2024-03-01T10:00:00.000Z" (Except.ok ())).notifications =
      [Notif.success "Record discharged successfully"] ∧
    (∀ r ∈ (handleDischarge demoState "2024-03-01T10:00:00.000Z" (Except.ok ())).state.records,
        r.mrn ≠ (ActiveRecord.admission pJohn).mrn) ∧
    (∀ q f, ∀ r ∈ filteredRecords
        (handleDischarge demoState "2024-03-01T10:00:00.000Z" (Except.ok ())).state.records q f,
        r.mrn ≠ (ActiveRecord.admission pJohn).mrn) ∧
    (handleDischarge demoState "2024-03-01T10:00:00.000Z" (Except.ok ())).state.selectedRecord =
      none ∧
    (handleDischarge demoState "2024-03-01T10:00:00.000Z" (Except.ok ())).state.dischargeDate =
      "" ∧
    (handleDischarge demoState "2024-03-01T10:00:00.000Z" (Except.ok ())).state.dischargeTime =
      "" ∧
    (handleDischarge demoState "2024-03-01T10:00:00.000Z" (Except.ok ())).state.dischargeNote =
      "" ∧
    (handleDischarge demoState "2024-03-01T10:00:00.000Z" (Except.ok ())).statsRefetched = true :=
  handleDischarge_success_postconditions demoState (ActiveRecord.admission pJohn)
    "2024-03-01T10:00:00.000Z" rfl (by decide) (by decide)

/-- C5 counterexample: on a failing remote update the emitted notification is
the fixed string `Failed to discharge record`; it does not contain the
underlying cause, and it is identical for two different causes, so the
notification does not carry the cause. -/
theorem dischargeFailureNotice_lacks_cause :
    (handleDischarge demoState "2024-03-01T10:00:00.000Z"
        (Except.error "network unreachable")).notifications =
      [Notif.error "Failed to discharge record"] ∧
    strIncludes "Failed to discharge record" "network unreachable" = false ∧
    (handleDischarge demoState "2024-03-01T10:00:00.000Z"
        (Except.error "network unreachable")).notifications =
      (handleDischarge demoState "2024-03-01T10:00:00.000Z"
        (Except.error "disk full")).notifications :=
  ⟨by decide, by decide, by decide⟩

/-- C5 as amended: for every discharge whose remote update fails, a failure
notification with the fixed message `Failed to discharge record` is emitted
and no local state is mutated — the list, the selection and the form fields
all remain as they were, and the statistics are not re-triggered. -/
theorem handleDischarge_failure_postconditions
    (st : ComponentState) (sel : ActiveRecord) (now cause : String)
    (hsel : st.selectedRecord = some sel)
    (hdate : st.dischargeDate ≠ "") (htime : st.dischargeTime ≠ "") :
    (handleDischarge st now (Except.error cause)).notifications =
      [Notif.error "Failed to discharge record"] ∧
    (handleDischarge st now (Except.error cause)).state = st ∧
    (handleDischarge st now (Except.error cause)).statsRefetched = false := by
  rw [handleDischarge_err_eq st sel now cause hsel hdate htime]
  exact ⟨rfl, rfl, rfl⟩

/-- Witness for C5 (amended): the sample discharge with a failing remote
update leaves the state untouched. -/
theorem handleDischarge_failure_postconditions_witness :
    (handleDischarge demoState "2024-03-01T10:00:00.000Z"
        (Except.error "network unreachable")).notifications =
      [Notif.error "Failed to discharge record"] ∧
    (handleDischarge demoState "2024-03-01T10:00:00.000Z"
        (Except.error "network unreachable")).state = demoState ∧
    (handleDischarge demoState "2024-03-01T10:00:00.000Z"
        (Except.error "network unreachable")).statsRefetched = false :=
  handleDischarge_failure_postconditions demoState (ActiveRecord.admission pJohn)
    "2024-03-01T10:00:00.000Z" "network unreachable" rfl (by decide) (by decide)

/-- C9: re-submitting after a successful discharge is a precondition failure:
the discharged record is gone from the local list, the selection was cleared,
and the second submission issues no update, emits the validation toast, and
changes nothing. -/
theorem handleDischarge_resubmission_guard
    (st : ComponentState) (sel : ActiveRecord) (now now2 : String)
    (remote2 : Except String Unit)
    (hsel : st.selectedRecord = some sel)
    (hdate : st.dischargeDate ≠ "") (htime : st.dischargeTime ≠ "") :
    sel ∉ (handleDischarge st now (Except.ok ())).state.records ∧
    (handleDischarge (handleDischarge st now (Except.ok ())).state now2 remote2).updates = [] ∧
    (handleDischarge (handleDischarge st now (Except.ok ())).state now2 remote2).notifications =
      [Notif.error "Please fill in all required fields"] ∧
    (handleDischarge (handleDischarge st now (Except.ok ())).state now2 remote2).state =
      (handleDischarge st now (Except.ok ())).state := by
  rw [handleDischarge_ok_eq st sel now hsel hdate htime]
  refine ⟨?_, ?_⟩
  · intro hmem
    have := (List.mem_filter.mp hmem).2
    simp at this
  · rw [handleDischarge_invalid_eq _ now2 remote2 (Or.inl rfl)]
    exact ⟨rfl, rfl, rfl⟩

/-- Witness for C9: after the sample discharge succeeds, submitting again
fails validation and issues no write. -/
theorem handleDischarge_resubmission_guard_witness :
    ActiveRecord.admission pJohn ∉
      (handleDischarge demoState "2024-03-01T10:00:00.000Z" (Except.ok ())).state.records ∧
    (handleDischarge (handleDischarge demoState "2024-03-01T10:00:00.000Z"
        (Except.ok ())).state "2024-03-01T10:05:00.000Z" (Except.ok ())).updates = [] ∧
    (handleDischarge (handleDischarge demoState "2024-03-01T10:00:00.000Z"
        (Except.ok ())).state "2024-03-01T10:05:00.000Z" (Except.ok ())).notifications =
      [Notif.error "Please fill in all required fields"] ∧
    (handleDischarge (handleDischarge demoState "2024-03-01T10:00:00.000Z"
        (Except.ok ())).state "2024-03-01T10:05:00.000Z" (Except.ok ())).state =
      (handleDischarge demoState "2024-03-01T10:00:00.000Z" (Except.ok ())).state :=
  handleDischarge_resubmission_guard demoState (ActiveRecord.admission pJohn)
    "2024-03-01T10:00:00.000Z" "2024-03-01T10:05:00.000Z" (Except.ok ())
    rfl (by decide) (by decide)

/-- C10: a successful discharge of an admission removes from the local list
every record whose medical record number equals the selected one — including a
consultation that happens to share it — even though the single remote update
touched only the `patients` table. -/
theorem handleDischarge_removes_sharing_mrn
    (st : ComponentState) (p : Patient) (c : Consultation) (now : String)
    (hsel : st.selectedRecord = some (ActiveRecord.admission p))
    (hdate : st.dischargeDate ≠ "") (htime : st.dischargeTime ≠ "")
    (hmem : ActiveRecord.consultation c ∈ st.records)
    (hmrn : c.mrn = p.mrn) :
    (∀ u ∈ (handleDischarge st now (Except.ok ())).updates, u.table = "patients") ∧
    ActiveRecord.consultation c ∉
      (handleDischarge st now (Except.ok ())).state.records ∧
    (∀ r ∈ (handleDischarge st now (Except.ok ())).state.records, r.mrn ≠ p.mrn) := by
  rw [handleDischarge_ok_eq st (ActiveRecord.admission p) now hsel hdate htime]
  refine ⟨?_, ?_, ?_⟩
  · intro u hu
    simp only [List.mem_singleton] at hu
    subst hu
    rfl
  · intro hc
    have := (List.mem_filter.mp hc).2
    simp [ActiveRecord.mrn, hmrn] at this
  · intro r hr
    have := (List.mem_filter.mp hr).2
    simpa [ActiveRecord.mrn] using this

/-- Witness for C10: discharging the sample admission also removes the
consultation sharing its medical record number, while only `patients` was
written. -/
theorem handleDischarge_removes_sharing_mrn_witness :
    (∀ u ∈ (handleDischarge demoStateShared "2024-03-01T10:00:00.000Z"
        (Except.ok ())).updates, u.table = "patients") ∧
    ActiveRecord.consultation cSameMrn ∉
      (handleDischarge demoStateShared "2024-03-01T10:00:00.000Z" (Except.ok ())).state.records ∧
    (∀ r ∈ (handleDischarge demoStateShared "2024-03-01T10:00:00.000Z"
        (Except.ok ())).state.records, r.mrn ≠ pJohn.mrn) :=
  handleDischarge_removes_sharing_mrn demoStateShared pJohn cSameMrn
    "2024-03-01T10:00:00.000Z" rfl (by decide) (by decide) (by decide) rfl

/-- Filtering a duplicate-free list for a key it contains, conjoined with a
side condition that holds at that key, yields exactly that key. -/
theorem filter_key_eq_singleton (l : List String) (s : String) (c : String → Bool)
    (hnd : l.Nodup) (hs : s ∈ l) (hc : c s = true) :
    l.filter (fun x => x == s && c x) = [s] := by
  induction l with
  | nil => cases hs
  | cons a t ih =>
      rcases List.nodup_cons.mp hnd with ⟨hat, hndt⟩
      rcases List.mem_cons.mp hs with h | h
      · subst h
        have htail : t.filter (fun x => x == s && c x) = [] := by
          apply List.filter_eq_nil_iff.mpr
          intro x hx
          simp only [Bool.and_eq_true, beq_iff_eq, not_and]
          exact fun hxa _ => hat (hxa ▸ hx)
        rw [List.filter_cons_of_pos (by simp [hc]), htail]
      · have has : a ≠ s := fun hh => hat (hh ▸ h)
        rw [List.filter_cons_of_neg (by simp [has]), ih hndt h]

/-- C6: per specialty of the fixed list, the computed admission count is the
number of `patients` rows with that specialty, status `Discharged`, and
`updated_at` inside the day window of `today`, and the consultation count is
the number of `consultations` rows with that consultation specialty, status
`Completed`, and `updated_at` inside the same window; every output entry of a
run for that specialty carries exactly these counts. -/
theorem fetchDischargeStats_specialty_counts (db : Database) (today s : String)
    (hs : s ∈ specialtiesList) :
    (specialtyStat db today s).dischargedToday.admissions =
      List.countP (fun p => decide (admissionDischargedToday today s p)) db.patients ∧
    (specialtyStat db today s).dischargedToday.consultations =
      List.countP (fun c => decide (consultationCompletedToday today s c)) db.consultations ∧
    ∀ e ∈ fetchDischargeStats db today, e.specialty = s → e = specialtyStat db today s := by
  refine ⟨?_, ?_, ?_⟩
  · rw [List.countP_eq_length_filter]
    show (db.patients.filter _).length = _
    congr 1
    apply List.filter_congr
    intro x _
    rw [Bool.eq_iff_iff]
    simp [admissionDischargedToday, inTodayWindow, and_assoc]
  · rw [List.countP_eq_length_filter]
    show (db.consultations.filter _).length = _
    congr 1
    apply List.filter_congr
    intro x _
    rw [Bool.eq_iff_iff]
    simp [consultationCompletedToday, inTodayWindow, and_assoc]
  · intro e he hspec
    have hmap := (List.mem_filter.mp he).1
    rcases List.mem_map.mp hmap with ⟨x, hx, hxe⟩
    subst hxe
    have hxs : x = s := hspec
    rw [hxs]

/-- Witness for C6: the Neurology counts on the sample store are as computed
by the counting predicates. -/
theorem fetchDischargeStats_specialty_counts_witness :
    (specialtyStat demoDb "2024-03-01" "Neurology").dischargedToday.admissions =
      List.countP (fun p => decide (admissionDischargedToday "2024-03-01" "Neurology" p))
        demoDb.patients ∧
    (specialtyStat demoDb "2024-03-01" "Neurology").dischargedToday.consultations =
      List.countP (fun c => decide (consultationCompletedToday "2024-03-01" "Neurology" c))
        demoDb.consultations ∧
    ∀ e ∈ fetchDischargeStats demoDb "2024-03-01", e.specialty = "Neurology" →
      e = specialtyStat demoDb "2024-03-01" "Neurology" :=
  fetchDischargeStats_specialty_counts demoDb "2024-03-01" "Neurology" (by decide)

/-- C7: no output entry of the statistics computation has both counts zero,
and every specialty of the fixed list with at least one nonzero count yields
exactly one output entry, carrying both its counts. -/
theorem fetchDischargeStats_omits_zero_entries (db : Database) (today : String) :
    (∀ e ∈ fetchDischargeStats db today,
        0 < e.dischargedToday.admissions ∨ 0 < e.dischargedToday.consultations) ∧
    ∀ s ∈ specialtiesList,
      (0 < (specialtyStat db today s).dischargedToday.admissions ∨
        0 < (specialtyStat db today s).dischargedToday.consultations) →
      (fetchDischargeStats db today).filter (fun e => e.specialty == s) =
        [specialtyStat db today s] := by
  constructor
  · intro e he
    have := (List.mem_filter.mp he).2
    simpa using this
  · intro s hs hpos
    have hsingle := filter_key_eq_singleton specialtiesList s
        (fun x => decide (0 < (specialtyStat db today x).dischargedToday.admissions) ||
                  decide (0 < (specialtyStat db today x).dischargedToday.consultations))
        (by decide) hs
        (by simp only [Bool.or_eq_true, decide_eq_true_eq]; exact hpos)
    calc (fetchDischargeStats db today).filter (fun e => e.specialty == s)
        = (specialtiesList.filter (fun x => x == s &&
              (decide (0 < (specialtyStat db today x).dischargedToday.admissions) ||
               decide (0 < (specialtyStat db today x).dischargedToday.consultations)))).map
            (specialtyStat db today) := by
          unfold fetchDischargeStats
          rw [List.filter_filter, List.filter_map]
          rfl
      _ = [s].map (specialtyStat db today) := by rw [hsingle]
      _ = [specialtyStat db today s] := rfl

/-- Witness for C7: on the sample store the Neurology entry is the unique
output entry for its specialty. -/
theorem fetchDischargeStats_omits_zero_entries_witness :
    (fetchDischargeStats demoDb "2024-03-01").filter (fun e => e.specialty == "Neurology") =
      [specialtyStat demoDb "2024-03-01" "Neurology"] :=
  (fetchDischargeStats_omits_zero_entries demoDb "2024-03-01").2 "Neurology"
    (by decide) (by decide)

/-- C8: a record appears in the rendered list iff it is in the unified list
and passes the spec's predicate — patient name contains the search term
case-insensitively, or the medical record number contains it case-sensitively,
and the specialty filter is unselected or matches — and two search terms equal
up to letter case have identical patient-name match sets. -/
theorem filteredRecords_spec_and_case_insensitive
    (records : List ActiveRecord) (searchTerm selectedSpecialty other : String)
    (hcase : strLower searchTerm = strLower other) :
    (∀ r, r ∈ filteredRecords records searchTerm selectedSpecialty ↔
        r ∈ records ∧ specPassesFilter searchTerm selectedSpecialty r) ∧
    records.filter (fun r => strIncludes (strLower r.patient_name) (strLower searchTerm)) =
      records.filter (fun r => strIncludes (strLower r.patient_name) (strLower other)) := by
  constructor
  · intro r
    unfold filteredRecords specPassesFilter matchesSearch matchesSpecialty
    rw [List.mem_filter]
    simp [Bool.and_eq_true, Bool.or_eq_true, beq_iff_eq]
  · rw [hcase]

/-- Witness for C8: on the sample list, searching `JAne` with no specialty
filter matches exactly the consultation named `Jane Roe`, and `JAne` and
`jane` give the same patient-name match set. -/
theorem filteredRecords_spec_and_case_insensitive_witness :
    (∀ r, r ∈ filteredRecords demoState.records "JAne" "" ↔
        r ∈ demoState.records ∧ specPassesFilter "JAne" "" r) ∧
    demoState.records.filter
        (fun r => strIncludes (strLower r.patient_name) (strLower "JAne")) =
      demoState.records.filter
        (fun r => strIncludes (strLower r.patient_name) (strLower "jane")) :=
  filteredRecords_spec_and_case_insensitive demoState.records "JAne" "" "jane" (by decide)
